import Mathlib

/-!
Verification of the questionnaire generation and scoring pipeline of the
`dqagent` repository (backend/functions/questionnaire_generator.py and the
questionnaire endpoint of backend/function_app.py).

Modelling conventions:
* Python floats are modelled as exact rationals (`Rat`); Python ints as `Int`.
* Python dicts with a fixed key set are modelled as structures; the open
  `additional_info.changes` dict is modelled as an association list in
  insertion order (Python dicts iterate in insertion order).
* The heterogeneous `related_data` payload is modelled as a tagged union
  (`RelatedVal`), one constructor per shape of value the rules actually store.
* The timestamp embedded in question ids (`datetime.now().strftime(...)`) is
  threaded in as an explicit string parameter `ts`.
* `json.loads` (Python standard library, external to the repository) is
  modelled as an explicit parameter `loads : String → Option PyVal`; a
  Python exception raised by a parse step is modelled as `Except.error`.
-/

/-- Characters of `needle` occur contiguously inside the second list
(model of Python's `needle in haystack` on strings). -/
def containsSub (needle : List Char) : List Char → Bool
  | [] => needle.isEmpty
  | c :: cs => needle.isPrefixOf (c :: cs) || containsSub needle cs

/-- Python's substring test `needle in s`. -/
def pySubstr (needle s : String) : Bool :=
  containsSub needle.toList s.toList

/-- One entry of `overview.portfolios` (the fields the engine reads;
`dq_data['overview']['portfolios'][i]` with `.get` defaults). -/
structure Portfolio where
  criteria : String
  no_of_contracts : Int
  delinquent_amount : Rat
  net_book_value : Rat
  deriving DecidableEq

/-- One entry of `writeoffs.writeoffs`. -/
structure WriteoffEntry where
  criteria : String
  net_loss_amount : Rat
  deriving DecidableEq

/-- One entry of `warnings.warnings`. -/
structure WarningEntry where
  description : String
  contracts : Int
  deriving DecidableEq

/-- The `overview` section. -/
structure OverviewSection where
  portfolios : List Portfolio
  deriving DecidableEq

/-- The `additional_info` section: the open `changes` dict (insertion
order preserved) and `summary.total_changes`. -/
structure AdditionalInfoSection where
  changes : List (String × Int)
  total_changes : Int
  deriving DecidableEq

/-- The `writeoffs` section: entries plus `flags.has_new_writeoffs`. -/
structure WriteoffsSection where
  writeoffs : List WriteoffEntry
  has_new_writeoffs : Bool
  deriving DecidableEq

/-- The `warnings` section. -/
structure WarningsSection where
  warnings : List WarningEntry
  deriving DecidableEq

/-- The DQ-report input `dq_data` (the parts the rules engine reads). -/
structure DQData where
  overview : OverviewSection
  additional_info : AdditionalInfoSection
  writeoffs : WriteoffsSection
  warnings : WarningsSection
  delivering_entity_name : String
  reporting_date : String
  deriving DecidableEq

/-- models/question_models.py `QuestionPriority` (string enum). -/
inductive QuestionPriority where
  | low
  | medium
  | high
  | critical
  deriving DecidableEq

/-- models/question_models.py `ResponseType` (string enum). -/
inductive ResponseType where
  | text
  | file_upload
  | structured
  | multiple_choice
  deriving DecidableEq

/-- A value stored in a question's `related_data` dict, as a tagged union of
the shapes the rule functions actually store. -/
inductive RelatedVal where
  | num (q : Rat)
  | int (n : Int)
  | str (s : String)
  | bool (b : Bool)
  | portfolio (p : Portfolio)
  | writeoff (w : WriteoffEntry)
  | warningEntries (ws : List WarningEntry)
  | strList (l : List String)
  | changeCounts (m : List (String × Int))
  deriving DecidableEq

/-- models/question_models.py `Question`. -/
structure Question where
  id : String
  category : String
  priority : QuestionPriority
  question_text : String
  context : String
  expected_response_type : ResponseType
  validation_rules : List String
  related_data : List (String × RelatedVal)
  follow_up_questions : Option (List String) := none
  order_sequence : Int
  generated_by_ai : Bool := true
  confidence_score : Option Rat := none
  deriving DecidableEq

/-- models/question_models.py `QuestionGenerationSummary`; the `summary`
dict built by `generate_questionnaire`. -/
structure QuestionGenerationSummary where
  total_questions : Nat
  high_priority : Nat
  critical_priority : Nat
  categories : List String
  requires_immediate_attention : Bool
  deriving DecidableEq

/-- models/question_models.py `QuestionGenerationResponse`. -/
structure QuestionGenerationResponse where
  country : String
  entity : String
  report_date : String
  questions : List Question
  summary : QuestionGenerationSummary
  deriving DecidableEq

/-! ### Number formatting (Python `f"{x:,.2f}"` and `str(int)`) -/

/-- Group a reversed digit list into blocks of three (least significant
digits first). -/
def chunksOf3 : List Char → List (List Char)
  | [] => []
  | a :: b :: c :: d :: rest => [a, b, c] :: chunksOf3 (d :: rest)
  | l => [l]

/-- Decimal representation of a natural number with thousands separators. -/
def commaGroup (n : Nat) : String :=
  String.mk ((String.intercalate ","
    ((chunksOf3 (Nat.repr n).toList.reverse).map String.mk)).toList.reverse)

/-- Round to the nearest integer, ties to even (the rounding used by
Python's fixed-point formatting, applied here to the exact rational). -/
def roundHalfEven (q : Rat) : Int :=
  let f : Int := ⌊q⌋
  let r : Rat := q - f
  if r < 1/2 then f
  else if 1/2 < r then f + 1
  else if f % 2 = 0 then f else f + 1

/-- Python's `f"{x:,.2f}"`: thousands separators and exactly two decimals.
Floats are modelled as exact rationals, so the rounding is applied to the
exact value. -/
def pyFormat2 (q : Rat) : String :=
  let neg := q < 0
  let cents := (roundHalfEven (|q| * 100)).toNat
  let ip := cents / 100
  let fp := cents % 100
  (if neg then "-" else "") ++ commaGroup ip ++ "."
    ++ (if fp < 10 then "0" else "") ++ Nat.repr fp

/-! ### generate_overview_questions -/

/-- The scanning loop of `generate_overview_questions`: one pass over the
portfolio list keeping the last entry whose criteria equals
"Relevant Portfolio" and (elif) the last entry whose criteria contains
"Error". -/
def overviewScan (ps : List Portfolio) : Option Portfolio × Option Portfolio :=
  ps.foldl
    (fun acc p =>
      if p.criteria == "Relevant Portfolio" then (some p, acc.2)
      else if pySubstr "Error" p.criteria then (acc.1, some p)
      else acc)
    (none, none)

/-- The CRITICAL delinquent-amount question (questionnaire_generator.py
lines 65-81). -/
def delinquentQuestion (p : Portfolio) (ts : String) : Question :=
  { id := "overview_delinquent_" ++ ts
    category := "Overview"
    priority := QuestionPriority.critical
    question_text := "It has been observed that there is a considerable increase in delinquent amount (€"
      ++ pyFormat2 p.delinquent_amount
      ++ ") and change in the NBV of the relevant portfolio compared to the previous month. Can you please provide additional information on this?"
    context := "Significant delinquent amount increase detected in portfolio analysis"
    expected_response_type := ResponseType.text
    validation_rules := ["min_length:75", "requires_explanation", "requires_timeline"]
    related_data := [("delinquent_amount", RelatedVal.num p.delinquent_amount),
                     ("portfolio_data", RelatedVal.portfolio p),
                     ("threshold_exceeded", RelatedVal.bool true)]
    order_sequence := 1
    generated_by_ai := true
    confidence_score := some (95/100) }

/-- The HIGH error-portfolio question (questionnaire_generator.py
lines 85-101). -/
def errorPortfolioQuestion (p : Portfolio) (ts : String) : Question :=
  { id := "overview_errors_" ++ ts
    category := "Overview"
    priority := QuestionPriority.high
    question_text := "There are " ++ toString p.no_of_contracts
      ++ " contracts in the Error portfolio with negative amounts detected. Please explain the nature of these errors and your remediation plan."
    context := "Error contracts with negative amounts detected in portfolio overview"
    expected_response_type := ResponseType.text
    validation_rules := ["min_length:50", "requires_action_plan"]
    related_data := [("error_contracts", RelatedVal.int p.no_of_contracts),
                     ("error_amount", RelatedVal.num p.net_book_value),
                     ("portfolio_data", RelatedVal.portfolio p)]
    order_sequence := 2
    generated_by_ai := true
    confidence_score := some (90/100) }

/-- The delinquent-amount conditional of the overview rule (lines 62-81):
`if relevant_portfolio and relevant_portfolio.get('delinquent_amount', 0) > 500000`. -/
def delinquentBranch (o : Option Portfolio) (ts : String) : List Question :=
  match o with
  | some p => if 500000 < p.delinquent_amount then [delinquentQuestion p ts] else []
  | none => []

/-- The error-portfolio conditional of the overview rule (lines 84-101):
`if error_portfolio and error_portfolio.get('no_of_contracts', 0) > 0`. -/
def errorBranch (o : Option Portfolio) (ts : String) : List Question :=
  match o with
  | some p => if 0 < p.no_of_contracts then [errorPortfolioQuestion p ts] else []
  | none => []

/-- questionnaire_generator.py `generate_overview_questions`. -/
def generate_overview_questions (dq_data : DQData) (ts : String) : List Question :=
  let scan := overviewScan dq_data.overview.portfolios
  delinquentBranch scan.1 ts ++ errorBranch scan.2 ts

/-! ### generate_additional_info_questions -/

/-- The significance filter: change categories whose count exceeds 10,
in dict insertion order (`significant_changes`). -/
def significantChanges (changes : List (String × Int)) : List (String × Int) :=
  changes.filter (fun kv => 10 < kv.2)

/-- `high_impact_changes`: rendered strings for the categories whose count
exceeds 10 and additionally exceeds 50. -/
def highImpactChanges (changes : List (String × Int)) : List String :=
  ((changes.filter (fun kv => 10 < kv.2)).filter (fun kv => 50 < kv.2)).map
    (fun kv => kv.1 ++ ": " ++ toString kv.2)

/-- The joined `change_summary` text over the first five significant
categories. -/
def changeSummaryText (sig : List (String × Int)) : String :=
  String.intercalate "; " ((sig.take 5).map (fun kv => kv.1 ++ ": " ++ toString kv.2))

/-- The single Additional Information question (questionnaire_generator.py
lines 127-149). -/
def additionalInfoQuestion (changes : List (String × Int)) (ts : String) : Question :=
  let sig := significantChanges changes
  let high_impact := highImpactChanges changes
  { id := "additional_changes_" ++ ts
    category := "Additional Information"
    priority := if high_impact.isEmpty then QuestionPriority.medium else QuestionPriority.high
    question_text := "You'll find the list of contracts in the \"Additional Information\" sheet of the DQ report. Can you please provide clarifications on the changes highlighted: "
      ++ changeSummaryText sig
    context := "Significant data changes detected in multiple categories"
    expected_response_type := ResponseType.structured
    validation_rules := ["requires_explanations_per_category", "min_length:100"]
    related_data := [("significant_changes", RelatedVal.changeCounts sig),
                     ("total_changes", RelatedVal.int ((sig.map (fun kv => kv.2)).sum)),
                     ("high_impact_changes", RelatedVal.strList high_impact),
                     ("change_categories", RelatedVal.strList (sig.map (fun kv => kv.1)))]
    follow_up_questions := some
      ["What business processes or system changes caused these modifications?",
       "Are these changes permanent or temporary adjustments?",
       "What controls are in place to validate these changes?"]
    order_sequence := 3
    generated_by_ai := true
    confidence_score := some (85/100) }

/-- questionnaire_generator.py `generate_additional_info_questions`. -/
def generate_additional_info_questions (dq_data : DQData) (ts : String) : List Question :=
  let changes := dq_data.additional_info.changes
  if (significantChanges changes).isEmpty then []
  else [additionalInfoQuestion changes ts]

/-! ### generate_writeoff_questions -/

/-- The MEDIUM writeoff question (questionnaire_generator.py lines 167-184). -/
def writeoffQuestion (w : WriteoffEntry) (has_new : Bool) (ts : String) : Question :=
  { id := "writeoffs_analysis_" ++ ts
    category := "Writeoffs"
    priority := QuestionPriority.medium
    question_text := "Can you please check and provide additional information on the net loss amount (€"
      ++ pyFormat2 w.net_loss_amount
      ++ ") and confirm the writeoff analysis? You'll find it in the 'Writeoff' sheet of the DQ report."
    context := "Writeoff amounts require verification and explanation"
    expected_response_type := ResponseType.text
    validation_rules := ["min_length:50", "requires_confirmation"]
    related_data := [("net_loss_amount", RelatedVal.num w.net_loss_amount),
                     ("writeoff_criteria", RelatedVal.str w.criteria),
                     ("new_writeoffs_present", RelatedVal.bool has_new),
                     ("writeoff_data", RelatedVal.writeoff w)]
    order_sequence := 4
    generated_by_ai := true
    confidence_score := some (80/100) }

/-- questionnaire_generator.py `generate_writeoff_questions`: if the flag is
set or any entry has a positive net loss, emit one question for the first
entry whose criteria is "Converted Portfolio" or "Relevant Portfolio"
(the loop breaks after the first match). -/
def generate_writeoff_questions (dq_data : DQData) (ts : String) : List Question :=
  let writeoff_data := dq_data.writeoffs.writeoffs
  if dq_data.writeoffs.has_new_writeoffs
      || writeoff_data.any (fun w => 0 < w.net_loss_amount) then
    match writeoff_data.find?
        (fun w => w.criteria == "Converted Portfolio" || w.criteria == "Relevant Portfolio") with
    | some w => [writeoffQuestion w dq_data.writeoffs.has_new_writeoffs ts]
    | none => []
  else []

/-! ### generate_error_warning_questions -/

/-- The MEDIUM warnings question (questionnaire_generator.py lines 202-218). -/
def warningsQuestion (rule_warnings : List WarningEntry) (ts : String) : Question :=
  let total_contracts := (rule_warnings.map (fun w => w.contracts)).sum
  { id := "warnings_rules_" ++ ts
    category := "Warnings"
    priority := QuestionPriority.medium
    question_text := "Can you please provide additional information for the warnings: "
      ++ toString total_contracts
      ++ " contracts with rule confirmation issues. What specific business rules are failing and what is your remediation plan?"
    context := "Rule confirmation warnings detected requiring business explanation"
    expected_response_type := ResponseType.structured
    validation_rules := ["requires_detailed_breakdown", "requires_remediation_plan"]
    related_data := [("warning_contracts", RelatedVal.int total_contracts),
                     ("rule_warnings", RelatedVal.warningEntries rule_warnings),
                     ("warning_types", RelatedVal.strList (rule_warnings.map (fun w => w.description)))]
    order_sequence := 5
    generated_by_ai := true
    confidence_score := some (75/100) }

/-- questionnaire_generator.py `generate_error_warning_questions`. -/
def generate_error_warning_questions (dq_data : DQData) (ts : String) : List Question :=
  let rule_warnings := dq_data.warnings.warnings.filter
    (fun w => pySubstr "confirm" (String.map Char.toLower w.description))
  if rule_warnings.isEmpty then []
  else [warningsQuestion rule_warnings ts]

/-! ### generate_questionnaire -/

/-- `priority_order = {"critical": 0, "high": 1, "medium": 2, "low": 3}`. -/
def priorityRank : QuestionPriority → Nat
  | QuestionPriority.critical => 0
  | QuestionPriority.high => 1
  | QuestionPriority.medium => 2
  | QuestionPriority.low => 3

/-- The sort key comparison of `generate_questionnaire`: ascending in
`(priority_order[priority], order_sequence)` lexicographically. -/
def questionKeyLE (a b : Question) : Bool :=
  decide (priorityRank a.priority < priorityRank b.priority
    ∨ (priorityRank a.priority = priorityRank b.priority
        ∧ a.order_sequence ≤ b.order_sequence))

/-- The renumbering loop `for i, question in enumerate(questions):
question.order_sequence = i + 1`, with `n` the next sequence value. -/
def renumberFrom (n : Nat) : List Question → List Question
  | [] => []
  | q :: qs => { q with order_sequence := (n : Int) } :: renumberFrom (n + 1) qs

/-- The `summary` dict built by `generate_questionnaire`
(questionnaire_generator.py lines 29-35); the set of categories is modelled
as the deduplicated list of category labels. -/
def summaryOf (questions : List Question) : QuestionGenerationSummary :=
  { total_questions := questions.length
    high_priority := questions.countP (fun q => q.priority == QuestionPriority.high)
    critical_priority := questions.countP (fun q => q.priority == QuestionPriority.critical)
    categories := (questions.map (fun q => q.category)).dedup
    requires_immediate_attention := questions.any
      (fun q => q.priority == QuestionPriority.critical || q.priority == QuestionPriority.high) }

/-- The concatenation of the four rule outputs, in source order. -/
def rawQuestions (dq_data : DQData) (ts : String) : List Question :=
  generate_overview_questions dq_data ts
    ++ generate_additional_info_questions dq_data ts
    ++ generate_writeoff_questions dq_data ts
    ++ generate_error_warning_questions dq_data ts

/-- questionnaire_generator.py `generate_questionnaire`: concatenate the four
rule outputs, sort by (priority rank, original order_sequence), renumber
densely from 1, and build the summary over the final list. -/
def generate_questionnaire (dq_data : DQData) (country ts : String) : QuestionGenerationResponse :=
  let questions := renumberFrom 1 ((rawQuestions dq_data ts).mergeSort questionKeyLE)
  { country := country
    entity := dq_data.delivering_entity_name
    report_date := dq_data.reporting_date
    questions := questions
    summary := summaryOf questions }

/-- The summary built inline by the `generate_questionnaire` HTTP endpoint
(function_app.py lines 1499-1506); only its `requires_immediate_attention`
flag differs from `summaryOf`: it tests for CRITICAL questions only. -/
def endpointRequiresImmediateAttention (questions : List Question) : Bool :=
  questions.any (fun q => q.priority == QuestionPriority.critical)

/-! ### calculate_risk_score / get_risk_level (dq_analyzer part of the file) -/

/-- `error_contracts`: sum of contract counts over portfolio entries whose
criteria contains "Error". -/
def error_contracts (dq_data : DQData) : Int :=
  ((dq_data.overview.portfolios.filter (fun p => pySubstr "Error" p.criteria)).map
    (fun p => p.no_of_contracts)).sum

/-- `total_contracts`: sum of all portfolio entries' contract counts. -/
def total_contracts (dq_data : DQData) : Int :=
  (dq_data.overview.portfolios.map (fun p => p.no_of_contracts)).sum

/-- `total_delinquent`: sum of all portfolio entries' delinquent amounts. -/
def total_delinquent (dq_data : DQData) : Rat :=
  (dq_data.overview.portfolios.map (fun p => p.delinquent_amount)).sum

/-- The `score_components` list of `calculate_risk_score`: error-rate,
delinquency and change-volume components, each appended only when its
precondition holds. -/
def riskComponents (dq_data : DQData) : List Rat :=
  (if 0 < total_contracts dq_data then
    [min ((error_contracts dq_data : Rat) / (total_contracts dq_data : Rat) * 100 * 2) 10]
   else [])
  ++
  (if 500000 < total_delinquent dq_data then
    [min (total_delinquent dq_data / 1000000 * 5) 10]
   else [])
  ++
  (if 200 < dq_data.additional_info.total_changes then
    [min ((dq_data.additional_info.total_changes : Rat) / 100) 10]
   else [])

/-- questionnaire_generator.py `calculate_risk_score`: the mean of the
applicable components, or 0 when none applies. -/
def calculate_risk_score (dq_data : DQData) : Rat :=
  let comps := riskComponents dq_data
  if comps.isEmpty then 0 else comps.sum / (comps.length : Rat)

/-- questionnaire_generator.py `get_risk_level`. -/
def get_risk_level (score : Rat) : String :=
  if 8 ≤ score then "high"
  else if 5 ≤ score then "medium"
  else "low"

/-! ### validate_response (response_processor part of the file) -/

/-- models/response_models.py `ValidationResult`. -/
structure ValidationResult where
  is_valid : Bool
  validation_score : Rat
  issues : List String
  suggestions : List String
  deriving DecidableEq

/-- models/question_models.py `ResponseSubmissionRequest` (the fields
`validate_response` reads). -/
structure ResponseSubmissionRequest where
  question_id : String
  response_text : Option String
  deriving DecidableEq

/-- Python truthiness test `not request.response_text`: true for an absent
or empty string. -/
def pyFalsyText : Option String → Bool
  | none => true
  | some s => s == ""

/-- questionnaire_generator.py `validate_response`. The outcome of the
external scoring call `openai_service.validate_response` (including the
`ValidationResult(**...)` construction) is threaded in as `ai`; `.error`
models any exception raised by it. The second component of the result
records whether the external call was invoked. -/
def validate_response (ai : Except Unit ValidationResult)
    (request : ResponseSubmissionRequest) : ValidationResult × Bool :=
  if pyFalsyText request.response_text then
    ({ is_valid := false
       validation_score := 0
       issues := ["Response text is required"]
       suggestions := ["Please provide a detailed response"] }, false)
  else
    match ai with
    | Except.ok v => (v, true)
    | Except.error _ =>
        ({ is_valid := decide (50 ≤ (request.response_text.getD "").length)
           validation_score := 6/10
           issues := ["AI validation temporarily unavailable"]
           suggestions := ["Please ensure response is complete and detailed"] }, true)

/-! ### AI-output parsing (function_app.py) -/

/-- A Python value produced by `json.loads`. -/
inductive PyVal where
  | null
  | bool (b : Bool)
  | num (q : Rat)
  | str (s : String)
  | arr (elems : List PyVal)
  | obj (fields : List (String × PyVal))

/-- Python's `s.find(c)`: index of the first occurrence, `-1` if absent. -/
def pyFind (c : Char) (s : List Char) : Int :=
  match s.findIdx? (fun x => x == c) with
  | some i => (i : Int)
  | none => -1

/-- Python's `s.rfind(c)`: index of the last occurrence, `-1` if absent. -/
def pyRFind (c : Char) (s : List Char) : Int :=
  match s.reverse.findIdx? (fun x => x == c) with
  | some i => ((s.length : Int) - 1 - (i : Int))
  | none => -1

/-- Python's slice `s[i:j]` for `0 ≤ i ≤ j`. -/
def pySlice (s : List Char) (i j : Int) : List Char :=
  (s.drop i.toNat).take (j - i).toNat

/-- Python's `s.strip()`: remove leading and trailing whitespace. -/
def pyStrip (s : List Char) : List Char :=
  ((s.dropWhile Char.isWhitespace).reverse.dropWhile Char.isWhitespace).reverse

/-- `isinstance(x, dict) and 'sections' in x`. -/
def isDictWithSections : PyVal → Bool
  | PyVal.obj fields => fields.any (fun kv => kv.1 == "sections")
  | _ => false

/-- The fallback structured response of `generate_chat_response`
(function_app.py lines 407-426). -/
def chatFallback (ai_response_text : String) : PyVal :=
  PyVal.obj
    [("summary", PyVal.str "Analysis completed - response formatting issue occurred"),
     ("sections", PyVal.arr
       [PyVal.obj [("title", PyVal.str "Response"),
                   ("content", PyVal.arr
                     [PyVal.obj [("type", PyVal.str "paragraph"),
                                 ("text", PyVal.str ai_response_text)]])]]),
     ("recommendations", PyVal.arr
       [PyVal.obj [("action", PyVal.str "Review response formatting in backend"),
                   ("priority", PyVal.str "medium")]])]

/-- The extraction stage of the parse-and-repair step of
`generate_chat_response` (function_app.py lines 386-426): extract between
the first `\x7b` and the last `\x7d` of the cleaned text, parse, check the
structure, and on any failure return the fallback structured response.
`loads` models `json.loads`, returning `none` where Python raises
`JSONDecodeError`. -/
def chatExtractAndValidate (loads : String → Option PyVal)
    (ai_response_text : String) (cleaned : List Char) : PyVal :=
  let json_start := pyFind '{' cleaned
  let json_end := pyRFind '}' cleaned + 1
  if 0 ≤ json_start ∧ json_start < json_end then
    match loads (String.mk (pySlice cleaned json_start json_end)) with
    | some v => if isDictWithSections v then v else chatFallback ai_response_text
    | none => chatFallback ai_response_text
  else chatFallback ai_response_text

/-- The code-fence stripping of `generate_chat_response` (function_app.py
lines 376-384) followed by `chatExtractAndValidate`. -/
def generate_chat_response_parse (loads : String → Option PyVal)
    (ai_response_text : String) : PyVal :=
  let cleaned := pyStrip ai_response_text.toList
  let cleaned := if ("```json".toList.isPrefixOf cleaned) then cleaned.drop 7 else cleaned
  let cleaned := if ("```".toList.isPrefixOf cleaned) then cleaned.drop 3 else cleaned
  let cleaned := if ("```".toList.isSuffixOf cleaned) then cleaned.take (cleaned.length - 3) else cleaned
  chatExtractAndValidate loads ai_response_text cleaned

/-- The parse step of `generate_ai_questions` (function_app.py lines
764-779): extract between the first `[` and the last `]` and parse, else
parse the whole response; a parse failure raises
`Exception("Invalid JSON response from AI")`, modelled as `Except.error`. -/
def generate_ai_questions_parse (loads : String → Option PyVal)
    (ai_response : String) : Except String PyVal :=
  let cs := ai_response.toList
  let start_idx := pyFind '[' cs
  let end_idx := pyRFind ']' cs + 1
  if 0 ≤ start_idx ∧ start_idx < end_idx then
    match loads (String.mk (pySlice cs start_idx end_idx)) with
    | some v => Except.ok v
    | none => Except.error "Invalid JSON response from AI"
  else
    match loads ai_response with
    | some v => Except.ok v
    | none => Except.error "Invalid JSON response from AI"

/-- Whether a parse step raised (propagated an exception). -/
def raisedParseError : Except String PyVal → Bool
  | Except.error _ => true
  | Except.ok _ => false

/-- The message of a raised parse exception, if any. -/
def parseErrorMessage : Except String PyVal → Option String
  | Except.error e => some e
  | Except.ok _ => none

/-- Modelled from the spec: "the first entry whose criteria label contains
'Error'" — the selection the spec and claim C4 describe, to be compared
with the code's `overviewScan`. -/
def firstErrorPortfolio (ps : List Portfolio) : Option Portfolio :=
  ps.find? (fun p => pySubstr "Error" p.criteria)

/-! ### Concrete inputs used by witnesses and counterexamples -/

/-- A DQ report with every section empty. -/
def emptyReport : DQData :=
  { overview := ⟨[]⟩
    additional_info := ⟨[], 0⟩
    writeoffs := ⟨[], false⟩
    warnings := ⟨[]⟩
    delivering_entity_name := "Unknown"
    reporting_date := "" }

/-- A report whose Error-labelled portfolio entry carries a negative
contract count. -/
def negativeCountReport : DQData :=
  { overview := ⟨[⟨"Error Portfolio", -5, 0, 0⟩, ⟨"Retail", 10, 0, 0⟩]⟩
    additional_info := ⟨[], 0⟩
    writeoffs := ⟨[], false⟩
    warnings := ⟨[]⟩
    delivering_entity_name := "E"
    reporting_date := "" }

/-- A report with a single "Relevant Portfolio" entry whose delinquent
amount is exactly 500,000.00. -/
def atThresholdReport : DQData :=
  { overview := ⟨[⟨"Relevant Portfolio", 10, 500000, 250000⟩]⟩
    additional_info := ⟨[], 0⟩
    writeoffs := ⟨[], false⟩
    warnings := ⟨[]⟩
    delivering_entity_name := "E"
    reporting_date := "2025-01-31" }

/-- A report with a single "Relevant Portfolio" entry whose delinquent
amount is 500,000.01. -/
def overThresholdReport : DQData :=
  { overview := ⟨[⟨"Relevant Portfolio", 10, 500000.01, 250000⟩]⟩
    additional_info := ⟨[], 0⟩
    writeoffs := ⟨[], false⟩
    warnings := ⟨[]⟩
    delivering_entity_name := "E"
    reporting_date := "2025-01-31" }

/-- A report with two Error-labelled portfolio entries: the first with 3
contracts, the second with 7. -/
def errorOrderCexReport : DQData :=
  { overview := ⟨[⟨"Error A", 3, 0, 0⟩, ⟨"Error B", 7, 0, 0⟩]⟩
    additional_info := ⟨[], 0⟩
    writeoffs := ⟨[], false⟩
    warnings := ⟨[]⟩
    delivering_entity_name := "E"
    reporting_date := "" }

/-- A report with one "Relevant Portfolio" entry (no delinquency) and one
Error-labelled entry with 4 contracts. -/
def errorWitnessReport : DQData :=
  { overview := ⟨[⟨"Relevant Portfolio", 100, 0, 0⟩, ⟨"Error Portfolio", 4, 0, 0⟩]⟩
    additional_info := ⟨[], 0⟩
    writeoffs := ⟨[], false⟩
    warnings := ⟨[]⟩
    delivering_entity_name := "E"
    reporting_date := "" }

/-- A report whose only question-triggering data is an Error portfolio
entry, so the generated questionnaire contains exactly one HIGH question
and no CRITICAL question. -/
def attentionCexReport : DQData :=
  { overview := ⟨[⟨"Error Portfolio", 3, 0, 0⟩]⟩
    additional_info := ⟨[], 0⟩
    writeoffs := ⟨[], false⟩
    warnings := ⟨[]⟩
    delivering_entity_name := "E"
    reporting_date := "2025-01-31" }

/-- A report with one change category at count 11 (significant, not high
impact) and one at the boundary count 10 (not significant). -/
def changesMediumReport : DQData :=
  { overview := ⟨[]⟩
    additional_info := ⟨[("Changes in Rating", 11), ("Changes in Contract End Date", 10)], 21⟩
    writeoffs := ⟨[], false⟩
    warnings := ⟨[]⟩
    delivering_entity_name := "E"
    reporting_date := "" }

/-- A report with one change category at count 51 (high impact) and one at
the boundary count 50 (significant but not high impact). -/
def changesHighReport : DQData :=
  { overview := ⟨[]⟩
    additional_info := ⟨[("Changes in Rating", 51), ("Changes in Down Payment", 50)], 101⟩
    writeoffs := ⟨[], false⟩
    warnings := ⟨[]⟩
    delivering_entity_name := "E"
    reporting_date := "" }

/-! ### C7 / C8: validate_response -/

/-- C7: for a submitted response whose response_text is absent or empty,
`validate_response` returns the fixed rejection result and does not invoke
the external scoring call, whatever that call would have returned. -/
theorem validate_response_empty_text (ai : Except Unit ValidationResult)
    (request : ResponseSubmissionRequest)
    (h : request.response_text = none ∨ request.response_text = some "") :
    validate_response ai request
      = ({ is_valid := false
           validation_score := 0
           issues := ["Response text is required"]
           suggestions := ["Please provide a detailed response"] }, false) := by
  rcases h with h | h <;> simp [validate_response, pyFalsyText, h]

/-- Witness for C7 at response_text = "" with a successful external call
available (which is not consulted). -/
theorem validate_response_empty_text_witness :
    validate_response
        (Except.ok { is_valid := true, validation_score := 1, issues := [], suggestions := [] })
        { question_id := "q1", response_text := some "" }
      = ({ is_valid := false
           validation_score := 0
           issues := ["Response text is required"]
           suggestions := ["Please provide a detailed response"] }, false) :=
  validate_response_empty_text _ _ (Or.inr rfl)

/-- C8: when the external scoring call fails for any reason, the fallback
result is returned (never the exception): valid iff the text has at least
50 characters, score exactly 0.6, fixed issues. -/
theorem validate_response_fallback (request : ResponseSubmissionRequest) (s : String)
    (hs : request.response_text = some s) (hne : s ≠ "") :
    validate_response (Except.error ()) request
      = ({ is_valid := decide (50 ≤ s.length)
           validation_score := 6/10
           issues := ["AI validation temporarily unavailable"]
           suggestions := ["Please ensure response is complete and detailed"] }, true) := by
  simp [validate_response, pyFalsyText, hs, hne]

/-- Witness for C8: a 60-character response under a failing external call is
judged valid with score 0.6. -/
theorem validate_response_fallback_witness :
    validate_response (Except.error ())
        { question_id := "q2"
          response_text := some "aaaaaaaaaaaaaaaaaaaaaaaaaaaaaaaaaaaaaaaaaaaaaaaaaaaaaaaaaaaa" }
      = ({ is_valid := true
           validation_score := 6/10
           issues := ["AI validation temporarily unavailable"]
           suggestions := ["Please ensure response is complete and detailed"] }, true) := by
  have h := validate_response_fallback
    { question_id := "q2"
      response_text := some "aaaaaaaaaaaaaaaaaaaaaaaaaaaaaaaaaaaaaaaaaaaaaaaaaaaaaaaaaaaa" }
    "aaaaaaaaaaaaaaaaaaaaaaaaaaaaaaaaaaaaaaaaaaaaaaaaaaaaaaaaaaaa" rfl (by decide)
  simpa using h

/-! ### C9: parse failures in the generation pipeline -/

/-- C9 (amended): the chat-response path always returns a structurally valid
result (a dict with a "sections" key), for every model of `json.loads` and
every raw output string; but the AI-question path, whenever `json.loads`
fails on every string (i.e. the output is not parseable as JSON anywhere),
raises `Exception("Invalid JSON response from AI")` after its one
bracket-extraction attempt. -/
theorem parse_pipeline_failure_spec (loads : String → Option PyVal) (raw : String) :
    isDictWithSections (generate_chat_response_parse loads raw) = true
    ∧ ((∀ s, loads s = none) →
        generate_ai_questions_parse loads raw
          = Except.error "Invalid JSON response from AI") := by
  constructor
  · have core : ∀ cleaned, isDictWithSections
        (chatExtractAndValidate loads raw cleaned) = true := by
      intro cleaned
      unfold chatExtractAndValidate
      dsimp only
      split
      · split
        · split
          · assumption
          · rfl
        · rfl
      · rfl
    unfold generate_chat_response_parse
    exact core _
  · intro hl
    unfold generate_ai_questions_parse
    dsimp only
    simp [hl]

/-- Witness for C9's amended statement with a `json.loads` model on which
every parse fails. -/
theorem parse_pipeline_failure_witness :
    isDictWithSections
        (generate_chat_response_parse (fun _ => none) "hello there") = true
    ∧ generate_ai_questions_parse (fun _ => none) "hello there"
        = Except.error "Invalid JSON response from AI" :=
  ⟨(parse_pipeline_failure_spec (fun _ => none) "hello there").1,
   (parse_pipeline_failure_spec (fun _ => none) "hello there").2 (fun _ => rfl)⟩

/-- Counterexample to C9 as stated: on an AI output that is not parseable as
JSON anywhere (modelled by a `json.loads` that fails on every string), the
parse step of `generate_ai_questions` propagates the failure as a raised
exception rather than returning a degraded-but-valid result. -/
theorem ai_questions_parse_raises_cex :
    raisedParseError
        (generate_ai_questions_parse (fun _ => none) "The model declined to answer") = true
    ∧ parseErrorMessage
        (generate_ai_questions_parse (fun _ => none) "The model declined to answer")
      = some "Invalid JSON response from AI" := by
  constructor <;> rfl

/-! ### C2: risk score bounds and risk level classification -/

/-- The mean of a nonempty list of rationals all lying in [0, 10] lies in
[0, 10]. -/
theorem mean_mem_Icc (l : List Rat) (hne : l ≠ [])
    (h : ∀ x ∈ l, 0 ≤ x ∧ x ≤ 10) :
    0 ≤ l.sum / (l.length : Rat) ∧ l.sum / (l.length : Rat) ≤ 10 := by
  have hlen : (0 : Rat) < (l.length : Rat) := by
    have := List.length_pos.2 hne
    exact_mod_cast this
  have hsum : 0 ≤ l.sum := List.sum_nonneg fun x hx => (h x hx).1
  have hub : l.sum ≤ (l.length : Rat) * 10 := by
    have := List.sum_le_card_nsmul l 10 fun x hx => (h x hx).2
    simpa [nsmul_eq_mul] using this
  constructor
  · exact div_nonneg hsum hlen.le
  · rw [div_le_iff₀ hlen]
    linarith

/-- Under nonnegative contract counts, every applicable risk component lies
in [0, 10]. -/
theorem riskComponents_mem_Icc (dq_data : DQData)
    (h : ∀ p ∈ dq_data.overview.portfolios, 0 ≤ p.no_of_contracts) :
    ∀ x ∈ riskComponents dq_data, 0 ≤ x ∧ x ≤ 10 := by
  have hec : 0 ≤ error_contracts dq_data := by
    apply List.sum_nonneg
    intro x hx
    rcases List.mem_map.1 hx with ⟨p, hp, rfl⟩
    exact h p (List.mem_of_mem_filter hp)
  intro x hx
  simp only [riskComponents, List.mem_append] at hx
  rcases hx with (hx | hx) | hx
  · by_cases hc : 0 < total_contracts dq_data
    · rw [if_pos hc] at hx
      simp only [List.mem_singleton] at hx
      subst hx
      have htc : (0 : Rat) < (total_contracts dq_data : Rat) := by exact_mod_cast hc
      have hecc : (0 : Rat) ≤ (error_contracts dq_data : Rat) := by exact_mod_cast hec
      constructor
      · exact le_min (by positivity) (by norm_num)
      · exact min_le_right _ _
    · rw [if_neg hc] at hx
      exact absurd hx (List.not_mem_nil x)
  · by_cases hd : 500000 < total_delinquent dq_data
    · rw [if_pos hd] at hx
      simp only [List.mem_singleton] at hx
      subst hx
      constructor
      · exact le_min (by nlinarith) (by norm_num)
      · exact min_le_right _ _
    · rw [if_neg hd] at hx
      exact absurd hx (List.not_mem_nil x)
  · by_cases hch : 200 < dq_data.additional_info.total_changes
    · rw [if_pos hch] at hx
      simp only [List.mem_singleton] at hx
      subst hx
      have : (0 : Rat) ≤ (dq_data.additional_info.total_changes : Rat) := by
        have : (0 : Int) ≤ dq_data.additional_info.total_changes := by omega
        exact_mod_cast this
      constructor
      · exact le_min (by positivity) (by norm_num)
      · exact min_le_right _ _
    · rw [if_neg hch] at hx
      exact absurd hx (List.not_mem_nil x)

/-- Characterization of `get_risk_level` over all scores. -/
theorem get_risk_level_spec (s : Rat) :
    (get_risk_level s = "high" ↔ 8 ≤ s)
    ∧ (get_risk_level s = "medium" ↔ 5 ≤ s ∧ s < 8)
    ∧ (get_risk_level s = "low" ↔ s < 5) := by
  unfold get_risk_level
  split_ifs with h1 h2 <;>
    refine ⟨⟨fun hh => ?_, fun hh => ?_⟩, ⟨fun hh => ?_, fun hh => ?_⟩,
      ⟨fun hh => ?_, fun hh => ?_⟩⟩ <;>
    first
      | rfl
      | linarith
      | exact absurd hh (by decide)
      | exact absurd hh h1
      | exact absurd hh.1 h2
      | exact ⟨h2, lt_of_not_le h1⟩

/-- C2 (amended): provided every portfolio entry's contract count is
nonnegative, `calculate_risk_score` — the simple mean of the applicable
components, 0 when none applies — lies in [0, 10], and `get_risk_level`
classifies it as "high" iff ≥ 8, "medium" iff in [5, 8), "low" otherwise.
Without the nonnegativity proviso the bound fails
(`risk_score_out_of_range_cex`). -/
theorem calculate_risk_score_spec (dq_data : DQData)
    (h : ∀ p ∈ dq_data.overview.portfolios, 0 ≤ p.no_of_contracts) :
    0 ≤ calculate_risk_score dq_data
    ∧ calculate_risk_score dq_data ≤ 10
    ∧ (riskComponents dq_data = [] → calculate_risk_score dq_data = 0)
    ∧ (get_risk_level (calculate_risk_score dq_data) = "high"
        ↔ 8 ≤ calculate_risk_score dq_data)
    ∧ (get_risk_level (calculate_risk_score dq_data) = "medium"
        ↔ 5 ≤ calculate_risk_score dq_data ∧ calculate_risk_score dq_data < 8)
    ∧ (get_risk_level (calculate_risk_score dq_data) = "low"
        ↔ calculate_risk_score dq_data < 5) := by
  have hb : 0 ≤ calculate_risk_score dq_data ∧ calculate_risk_score dq_data ≤ 10 := by
    unfold calculate_risk_score
    by_cases hne : (riskComponents dq_data).isEmpty
    · rw [if_pos hne]
      norm_num
    · rw [if_neg hne]
      exact mean_mem_Icc _ (by simpa [List.isEmpty_iff] using hne)
        (riskComponents_mem_Icc dq_data h)
  refine ⟨hb.1, hb.2, ?_, (get_risk_level_spec _).1, (get_risk_level_spec _).2.1,
    (get_risk_level_spec _).2.2⟩
  intro hnil
  unfold calculate_risk_score
  rw [if_pos (by simp [hnil])]

/-- Witness for C2's amended statement on the empty report (no portfolio
entries, hence trivially nonnegative counts). -/
theorem calculate_risk_score_spec_witness :
    0 ≤ calculate_risk_score emptyReport
    ∧ calculate_risk_score emptyReport ≤ 10
    ∧ (riskComponents emptyReport = [] → calculate_risk_score emptyReport = 0)
    ∧ (get_risk_level (calculate_risk_score emptyReport) = "high"
        ↔ 8 ≤ calculate_risk_score emptyReport)
    ∧ (get_risk_level (calculate_risk_score emptyReport) = "medium"
        ↔ 5 ≤ calculate_risk_score emptyReport ∧ calculate_risk_score emptyReport < 8)
    ∧ (get_risk_level (calculate_risk_score emptyReport) = "low"
        ↔ calculate_risk_score emptyReport < 5) :=
  calculate_risk_score_spec emptyReport (by simp [emptyReport])

/-- Counterexample to C2 as stated: a report whose Error portfolio entry
has a negative contract count yields a risk score of −200, outside [0, 10]
(the claim asserts the bound for every report input). -/
theorem risk_score_out_of_range_cex :
    calculate_risk_score negativeCountReport = -200
    ∧ ¬ (0 ≤ calculate_risk_score negativeCountReport) := by
  have hec : error_contracts negativeCountReport = -5 := by rfl
  have htc : total_contracts negativeCountReport = 5 := by rfl
  have htd : total_delinquent negativeCountReport = 0 := by
    simp [total_delinquent, negativeCountReport]
  have hcomps : riskComponents negativeCountReport
      = [min ((-5 : Rat) / (5 : Rat) * 100 * 2) 10] := by
    unfold riskComponents
    rw [hec, htc, htd]
    norm_num [negativeCountReport]
  have hscore : calculate_risk_score negativeCountReport = -200 := by
    unfold calculate_risk_score
    rw [hcomps]
    norm_num
  exact ⟨hscore, by rw [hscore]; norm_num⟩

/-! ### C4 / C5: the overview rule -/

theorem getLast?_cons_or (a : Portfolio) (l : List Portfolio) :
    (a :: l).getLast? = l.getLast?.or (some a) := by
  induction l generalizing a with
  | nil => rfl
  | cons b l ih =>
      rw [List.getLast?_cons_cons, ih b]
      cases h : l.getLast? <;> simp

/-- The overview scanning loop keeps, in each component, the last matching
entry (later matches overwrite earlier ones). -/
theorem overviewScan_foldl (ps : List Portfolio)
    (acc : Option Portfolio × Option Portfolio) :
    ps.foldl
      (fun acc p =>
        if p.criteria == "Relevant Portfolio" then (some p, acc.2)
        else if pySubstr "Error" p.criteria then (acc.1, some p)
        else acc)
      acc
    = (((ps.filter (fun p => p.criteria == "Relevant Portfolio")).getLast?).or acc.1,
       ((ps.filter (fun p =>
          !(p.criteria == "Relevant Portfolio") && pySubstr "Error" p.criteria)).getLast?).or acc.2) := by
  induction ps generalizing acc with
  | nil => simp
  | cons p ps ih =>
      rw [List.foldl_cons]
      by_cases h1 : p.criteria == "Relevant Portfolio"
      · rw [if_pos h1, ih]
        rw [List.filter_cons_of_pos (by simpa using h1),
          List.filter_cons_of_neg (by simp [h1])]
        rw [getLast?_cons_or]
        cases h : (ps.filter (fun p => p.criteria == "Relevant Portfolio")).getLast? <;> simp
      · by_cases h2 : pySubstr "Error" p.criteria
        · rw [if_neg h1, if_pos h2, ih]
          rw [List.filter_cons_of_neg (by simpa using h1),
            List.filter_cons_of_pos (by simp [h1, h2])]
          rw [getLast?_cons_or]
          cases h : (ps.filter (fun p =>
            !(p.criteria == "Relevant Portfolio") && pySubstr "Error" p.criteria)).getLast? <;> simp
        · rw [if_neg h1, if_neg h2, ih]
          rw [List.filter_cons_of_neg (by simpa using h1),
            List.filter_cons_of_neg (by simp [h1, h2])]

/-- `overviewScan` selects the last "Relevant Portfolio" entry and the last
entry whose criteria contains "Error". -/
theorem overviewScan_eq (ps : List Portfolio) :
    overviewScan ps
      = ((ps.filter (fun p => p.criteria == "Relevant Portfolio")).getLast?,
         (ps.filter (fun p =>
            !(p.criteria == "Relevant Portfolio") && pySubstr "Error" p.criteria)).getLast?) := by
  unfold overviewScan
  rw [overviewScan_foldl]
  simp

/-- The error branch of the overview rule never contributes a CRITICAL
question. -/
theorem errorBranch_no_critical (o : Option Portfolio) (ts : String) :
    ((errorBranch o ts).countP
        (fun q => q.priority == QuestionPriority.critical) = 0)
    ∧ ((errorBranch o ts).filter
        (fun q => q.priority == QuestionPriority.critical) = []) := by
  rcases o with _ | q
  · exact ⟨rfl, rfl⟩
  · unfold errorBranch
    dsimp only
    split
    · exact ⟨by simp [errorPortfolioQuestion], by simp [errorPortfolioQuestion]⟩
    · exact ⟨rfl, rfl⟩

/-- C5: when the scanning loop has selected a "Relevant Portfolio" entry
`p`, the overview rule emits the CRITICAL delinquent-amount question iff
`p.delinquent_amount` strictly exceeds 500,000; the question carries the
min_length:75 validation tag. -/
theorem overview_delinquent_threshold_spec (dq_data : DQData) (ts : String) (p : Portfolio)
    (hp : (overviewScan dq_data.overview.portfolios).1 = some p) :
    ((generate_overview_questions dq_data ts).countP
        (fun q => q.priority == QuestionPriority.critical)
      = if 500000 < p.delinquent_amount then 1 else 0)
    ∧ (500000 < p.delinquent_amount →
        (generate_overview_questions dq_data ts).filter
            (fun q => q.priority == QuestionPriority.critical)
          = [delinquentQuestion p ts])
    ∧ (delinquentQuestion p ts).priority = QuestionPriority.critical
    ∧ "min_length:75" ∈ (delinquentQuestion p ts).validation_rules
    ∧ (overviewScan dq_data.overview.portfolios).1
        = (dq_data.overview.portfolios.filter
            (fun q => q.criteria == "Relevant Portfolio")).getLast? := by
  unfold generate_overview_questions
  dsimp only
  rw [hp]
  refine ⟨?_, ?_, rfl, by simp [delinquentQuestion], by rw [← hp, overviewScan_eq]⟩
  · rw [List.countP_append, (errorBranch_no_critical _ ts).1, Nat.add_zero,
      delinquentBranch]
    by_cases hd : 500000 < p.delinquent_amount
    · rw [if_pos hd, if_pos hd]
      simp [delinquentQuestion]
    · rw [if_neg hd, if_neg hd]
      simp
  · intro hd
    rw [List.filter_append, (errorBranch_no_critical _ ts).2, List.append_nil,
      delinquentBranch, if_pos hd]
    simp [delinquentQuestion]

/-- Witness for C5 at the boundary: delinquent amount exactly 500,000.00
emits no critical question; 500,000.01 emits exactly one. -/
theorem overview_delinquent_threshold_witness :
    (overviewScan atThresholdReport.overview.portfolios).1
        = some ⟨"Relevant Portfolio", 10, 500000, 250000⟩
    ∧ (generate_overview_questions atThresholdReport "t").countP
        (fun q => q.priority == QuestionPriority.critical) = 0
    ∧ (overviewScan overThresholdReport.overview.portfolios).1
        = some ⟨"Relevant Portfolio", 10, 500000.01, 250000⟩
    ∧ (generate_overview_questions overThresholdReport "t").countP
        (fun q => q.priority == QuestionPriority.critical) = 1 := by
  have h1 := (overview_delinquent_threshold_spec atThresholdReport "t"
    ⟨"Relevant Portfolio", 10, 500000, 250000⟩ rfl).1
  have h2 := (overview_delinquent_threshold_spec overThresholdReport "t"
    ⟨"Relevant Portfolio", 10, 500000.01, 250000⟩ rfl).1
  rw [if_neg (by norm_num)] at h1
  rw [if_pos (by norm_num)] at h2
  exact ⟨rfl, h1, rfl, h2⟩

/-- The delinquent branch of the overview rule never contributes a HIGH
question. -/
theorem delinquentBranch_no_high (o : Option Portfolio) (ts : String) :
    (delinquentBranch o ts).filter
      (fun q => q.priority == QuestionPriority.high) = [] := by
  rcases o with _ | q
  · rfl
  · unfold delinquentBranch
    dsimp only
    split
    · simp [delinquentQuestion]
    · rfl

/-- C4 (amended): the overview rule derives its error question from the
LAST portfolio entry whose criteria contains "Error" (the scanning loop
overwrites earlier matches); when that entry has a positive contract count,
exactly one HIGH-priority Overview-category question is emitted, naming
that entry's exact contract count, with validation tags including
min_length:50. -/
theorem overview_error_question_spec (dq_data : DQData) (ts : String) (p : Portfolio)
    (hp : (overviewScan dq_data.overview.portfolios).2 = some p)
    (hc : 0 < p.no_of_contracts) :
    ((overviewScan dq_data.overview.portfolios).2
        = (dq_data.overview.portfolios.filter (fun q =>
            !(q.criteria == "Relevant Portfolio") && pySubstr "Error" q.criteria)).getLast?)
    ∧ (generate_overview_questions dq_data ts).filter
          (fun q => q.priority == QuestionPriority.high)
        = [errorPortfolioQuestion p ts]
    ∧ (errorPortfolioQuestion p ts).priority = QuestionPriority.high
    ∧ (errorPortfolioQuestion p ts).category = "Overview"
    ∧ (errorPortfolioQuestion p ts).question_text
        = "There are " ++ toString p.no_of_contracts
          ++ " contracts in the Error portfolio with negative amounts detected. Please explain the nature of these errors and your remediation plan."
    ∧ "min_length:50" ∈ (errorPortfolioQuestion p ts).validation_rules := by
  refine ⟨by rw [overviewScan_eq], ?_, rfl, rfl, rfl, by simp [errorPortfolioQuestion]⟩
  unfold generate_overview_questions
  dsimp only
  rw [hp]
  rw [List.filter_append, delinquentBranch_no_high, List.nil_append,
    errorBranch, if_pos hc]
  simp [errorPortfolioQuestion]

/-- Witness for C4's amended statement: a report whose last (and only)
Error-labelled entry has 4 contracts yields exactly one HIGH question. -/
theorem overview_error_question_witness :
    (overviewScan errorWitnessReport.overview.portfolios).2
        = some ⟨"Error Portfolio", 4, 0, 0⟩
    ∧ 0 < (⟨"Error Portfolio", 4, 0, 0⟩ : Portfolio).no_of_contracts
    ∧ (generate_overview_questions errorWitnessReport "t").filter
          (fun q => q.priority == QuestionPriority.high)
        = [errorPortfolioQuestion ⟨"Error Portfolio", 4, 0, 0⟩ "t"]
    ∧ "min_length:50" ∈
        (errorPortfolioQuestion ⟨"Error Portfolio", 4, 0, 0⟩ "t").validation_rules := by
  have h := overview_error_question_spec errorWitnessReport "t"
    ⟨"Error Portfolio", 4, 0, 0⟩ rfl (by decide)
  exact ⟨rfl, by decide, h.2.1, h.2.2.2.2.2⟩

/-- Counterexample to C4 as stated: with two Error-labelled entries (3
contracts, then 7 contracts), the FIRST matching entry has 3 contracts and
a positive count, yet the single emitted question names 7 — the question is
derived from the last matching entry, not the first. -/
theorem overview_error_first_entry_cex :
    firstErrorPortfolio errorOrderCexReport.overview.portfolios
        = some ⟨"Error A", 3, 0, 0⟩
    ∧ 0 < (⟨"Error A", 3, 0, 0⟩ : Portfolio).no_of_contracts
    ∧ (generate_overview_questions errorOrderCexReport "t").map (fun q => q.question_text)
        = ["There are 7 contracts in the Error portfolio with negative amounts detected. Please explain the nature of these errors and your remediation plan."]
    ∧ ("There are 7 contracts in the Error portfolio with negative amounts detected. Please explain the nature of these errors and your remediation plan." : String)
        ≠ "There are 3 contracts in the Error portfolio with negative amounts detected. Please explain the nature of these errors and your remediation plan." := by
  refine ⟨rfl, by decide, ?_, by decide⟩
  rfl

/-! ### C6: the additional-information rule -/

theorem filter_isEmpty_eq_not_any {α : Type} (l : List α) (p : α → Bool) :
    (l.filter p).isEmpty = !(l.any p) := by
  induction l with
  | nil => rfl
  | cons a l ih =>
      by_cases h : p a
      · simp [List.filter_cons, List.any_cons, h]
      · simp [List.filter_cons, List.any_cons, h, ih]

/-- C6: a change category is significant iff its count strictly exceeds 10;
exactly one Additional Information question is emitted iff some significant
change exists; its priority is HIGH iff some category also exceeds 50, else
MEDIUM; it lists the first five significant categories with their counts,
has structured response type, the min_length:100 tag, and exactly the three
fixed follow-up questions. -/
theorem additional_info_question_spec (dq_data : DQData) (ts : String) :
    ((generate_additional_info_questions dq_data ts).length
        = if dq_data.additional_info.changes.any (fun kv => 10 < kv.2) then 1 else 0)
    ∧ ∀ q ∈ generate_additional_info_questions dq_data ts,
        q.priority = (if dq_data.additional_info.changes.any
              (fun kv => 10 < kv.2 && 50 < kv.2)
            then QuestionPriority.high else QuestionPriority.medium)
        ∧ q.expected_response_type = ResponseType.structured
        ∧ "min_length:100" ∈ q.validation_rules
        ∧ q.follow_up_questions = some
            ["What business processes or system changes caused these modifications?",
             "Are these changes permanent or temporary adjustments?",
             "What controls are in place to validate these changes?"]
        ∧ q.question_text
            = "You'll find the list of contracts in the \"Additional Information\" sheet of the DQ report. Can you please provide clarifications on the changes highlighted: "
              ++ String.intercalate "; "
                (((dq_data.additional_info.changes.filter (fun kv => 10 < kv.2)).take 5).map
                  (fun kv => kv.1 ++ ": " ++ toString kv.2)) := by
  have hempty : (significantChanges dq_data.additional_info.changes).isEmpty
      = !(dq_data.additional_info.changes.any (fun kv => 10 < kv.2)) :=
    filter_isEmpty_eq_not_any _ _
  constructor
  · unfold generate_additional_info_questions
    dsimp only
    rw [hempty]
    cases hany : dq_data.additional_info.changes.any (fun kv => 10 < kv.2) <;> simp
  · intro q hq
    unfold generate_additional_info_questions at hq
    dsimp only at hq
    rw [hempty] at hq
    cases hany : dq_data.additional_info.changes.any (fun kv => 10 < kv.2) with
    | false =>
        rw [hany] at hq
        simp at hq
    | true =>
        rw [hany] at hq
        simp only [Bool.not_true, List.isEmpty_iff, if_neg] at hq
        have hq' : q = additionalInfoQuestion dq_data.additional_info.changes ts := by
          simpa using hq
        subst hq'
        have hprio : (additionalInfoQuestion dq_data.additional_info.changes ts).priority
            = if dq_data.additional_info.changes.any (fun kv => 10 < kv.2 && 50 < kv.2)
              then QuestionPriority.high else QuestionPriority.medium := by
          unfold additionalInfoQuestion
          dsimp only
          have hmap : ∀ (l' : List (String × Int)) (f : (String × Int) → String),
              (l'.map f).isEmpty = l'.isEmpty := by
            intro l' f
            cases l' <;> rfl
          have hhi : (highImpactChanges dq_data.additional_info.changes).isEmpty
              = !(dq_data.additional_info.changes.any (fun kv => 10 < kv.2 && 50 < kv.2)) := by
            unfold highImpactChanges
            rw [hmap, filter_isEmpty_eq_not_any, List.any_filter]
          rw [hhi]
          cases dq_data.additional_info.changes.any (fun kv => 10 < kv.2 && 50 < kv.2) <;> simp
        refine ⟨hprio, rfl, by simp [additionalInfoQuestion], rfl, rfl⟩

/-- Witness for C6 at the boundaries: counts (11, 10) emit one MEDIUM
question (10 is not significant, 11 is, neither is high impact); counts
(51, 50) emit one HIGH question (51 is high impact, 50 is not). -/
theorem additional_info_question_witness :
    (generate_additional_info_questions changesMediumReport "t").length = 1
    ∧ (additionalInfoQuestion changesMediumReport.additional_info.changes "t").priority
        = QuestionPriority.medium
    ∧ (generate_additional_info_questions changesHighReport "t").length = 1
    ∧ (additionalInfoQuestion changesHighReport.additional_info.changes "t").priority
        = QuestionPriority.high := by
  have h1 := additional_info_question_spec changesMediumReport "t"
  have h2 := additional_info_question_spec changesHighReport "t"
  have hm1 : additionalInfoQuestion changesMediumReport.additional_info.changes "t"
      ∈ generate_additional_info_questions changesMediumReport "t" := by
    rw [show generate_additional_info_questions changesMediumReport "t"
        = [additionalInfoQuestion changesMediumReport.additional_info.changes "t"] from rfl]
    exact List.mem_singleton_self _
  have hm2 : additionalInfoQuestion changesHighReport.additional_info.changes "t"
      ∈ generate_additional_info_questions changesHighReport "t" := by
    rw [show generate_additional_info_questions changesHighReport "t"
        = [additionalInfoQuestion changesHighReport.additional_info.changes "t"] from rfl]
    exact List.mem_singleton_self _
  refine ⟨?_, ?_, ?_, ?_⟩
  · have := h1.1
    simpa [changesMediumReport] using this
  · have := (h1.2 _ hm1).1
    simpa [changesMediumReport] using this
  · have := h2.1
    simpa [changesHighReport] using this
  · have := (h2.2 _ hm2).1
    simpa [changesHighReport] using this

/-! ### C3: requires_immediate_attention -/

/-- C3 (amended): the two implementations disagree. The rules-engine
summary (`questionnaire_generator.generate_questionnaire`) sets
requires_immediate_attention iff a critical-priority OR high-priority
question exists; the HTTP endpoint summary (function_app.py) sets it iff a
critical-priority question exists. -/
theorem requires_immediate_attention_spec (questions : List Question) :
    ((summaryOf questions).requires_immediate_attention
        = decide (0 < (summaryOf questions).critical_priority
            ∨ 0 < (summaryOf questions).high_priority))
    ∧ (endpointRequiresImmediateAttention questions
        = decide (0 < questions.countP
            (fun q => q.priority == QuestionPriority.critical))) := by
  have beq : ∀ (x y : Bool), (x = true ↔ y = true) → x = y := by
    intro x y h
    cases x <;> cases y <;> simp_all
  constructor
  · apply beq
    simp only [summaryOf, List.any_eq_true, List.countP_pos_iff, decide_eq_true_eq,
      Bool.or_eq_true, and_or_left, exists_or]
  · apply beq
    simp only [endpointRequiresImmediateAttention, List.any_eq_true,
      List.countP_pos_iff, decide_eq_true_eq]

/-- Counterexample to C3 as stated: a questionnaire generated by the rules
engine containing one HIGH and no CRITICAL question has
requires_immediate_attention = true while critical_priority = 0, so the
"iff critical_priority > 0" claim fails for this code path. -/
theorem attention_high_without_critical_cex :
    ((generate_questionnaire attentionCexReport "NL" "20250101_000000").summary.requires_immediate_attention = true)
    ∧ ((generate_questionnaire attentionCexReport "NL" "20250101_000000").summary.critical_priority = 0) := by
  have hraw : rawQuestions attentionCexReport "20250101_000000"
      = [errorPortfolioQuestion ⟨"Error Portfolio", 3, 0, 0⟩ "20250101_000000"] := rfl
  have hsort : (rawQuestions attentionCexReport "20250101_000000").mergeSort questionKeyLE
      = [errorPortfolioQuestion ⟨"Error Portfolio", 3, 0, 0⟩ "20250101_000000"] := by
    rw [hraw]
    exact List.mergeSort_singleton _
  unfold generate_questionnaire
  dsimp only
  rw [hsort]
  exact ⟨rfl, rfl⟩

/-! ### C10: question count bounds -/

theorem delinquentBranch_length_le (o : Option Portfolio) (ts : String) :
    (delinquentBranch o ts).length ≤ 1 := by
  rcases o with _ | p
  · simp [delinquentBranch]
  · unfold delinquentBranch
    dsimp only
    split <;> simp

theorem errorBranch_length_le (o : Option Portfolio) (ts : String) :
    (errorBranch o ts).length ≤ 1 := by
  rcases o with _ | p
  · simp [errorBranch]
  · unfold errorBranch
    dsimp only
    split <;> simp

theorem renumberFrom_length (n : Nat) (qs : List Question) :
    (renumberFrom n qs).length = qs.length := by
  induction qs generalizing n with
  | nil => rfl
  | cons q qs ih => simp [renumberFrom, ih]

/-- C10: the rules engine emits at most 5 questions: at most 2 from the
overview rule, at most 1 each from the additional-information, writeoff and
warnings rules (the writeoff loop breaks after its first match). -/
theorem questionnaire_question_count_bounds (dq_data : DQData) (country ts : String) :
    (generate_overview_questions dq_data ts).length ≤ 2
    ∧ (generate_additional_info_questions dq_data ts).length ≤ 1
    ∧ (generate_writeoff_questions dq_data ts).length ≤ 1
    ∧ (generate_error_warning_questions dq_data ts).length ≤ 1
    ∧ (generate_questionnaire dq_data country ts).questions.length ≤ 5 := by
  have hov : (generate_overview_questions dq_data ts).length ≤ 2 := by
    unfold generate_overview_questions
    dsimp only
    rw [List.length_append]
    have h1 := delinquentBranch_length_le (overviewScan dq_data.overview.portfolios).1 ts
    have h2 := errorBranch_length_le (overviewScan dq_data.overview.portfolios).2 ts
    omega
  have hadd : (generate_additional_info_questions dq_data ts).length ≤ 1 := by
    unfold generate_additional_info_questions
    dsimp only
    split <;> simp
  have hwo : (generate_writeoff_questions dq_data ts).length ≤ 1 := by
    unfold generate_writeoff_questions
    dsimp only
    split
    · split <;> simp
    · simp
  have hwa : (generate_error_warning_questions dq_data ts).length ≤ 1 := by
    unfold generate_error_warning_questions
    dsimp only
    split <;> simp
  refine ⟨hov, hadd, hwo, hwa, ?_⟩
  have hq : (generate_questionnaire dq_data country ts).questions
      = renumberFrom 1 ((rawQuestions dq_data ts).mergeSort questionKeyLE) := rfl
  rw [hq, renumberFrom_length, List.length_mergeSort]
  unfold rawQuestions
  simp only [List.length_append]
  omega

/-! ### C1: final ordering invariant -/

theorem questionKeyLE_trans (a b c : Question)
    (hab : questionKeyLE a b = true) (hbc : questionKeyLE b c = true) :
    questionKeyLE a c = true := by
  simp only [questionKeyLE, decide_eq_true_eq] at *
  omega

theorem questionKeyLE_total (a b : Question) :
    (questionKeyLE a b || questionKeyLE b a) = true := by
  simp only [questionKeyLE, Bool.or_eq_true, decide_eq_true_eq]
  omega

theorem renumberFrom_map_order (n : Nat) (qs : List Question) :
    (renumberFrom n qs).map (fun q => q.order_sequence)
      = (List.range' n qs.length).map Int.ofNat := by
  induction qs generalizing n with
  | nil => rfl
  | cons q qs ih => simp [renumberFrom, List.range', ih]

theorem renumberFrom_map_rank (n : Nat) (qs : List Question) :
    (renumberFrom n qs).map (fun q => priorityRank q.priority)
      = qs.map (fun q => priorityRank q.priority) := by
  induction qs generalizing n with
  | nil => rfl
  | cons q qs ih => simp [renumberFrom, ih]

/-- C1: the final question list is a renumbering (with order_sequence
values exactly 1..N, no gaps) of a stable sort of the rule outputs that is
pairwise ordered by (priority rank, original order_sequence) — so read in
order, priority rank (critical < high < medium < low) is non-decreasing and
ties between equal-priority questions follow the original pre-sort
order_sequence. -/
theorem generate_questionnaire_order_invariant (dq_data : DQData) (country ts : String) :
    ∃ s : List Question,
      s.Perm (rawQuestions dq_data ts)
      ∧ s.Pairwise (fun a b => questionKeyLE a b = true)
      ∧ (generate_questionnaire dq_data country ts).questions = renumberFrom 1 s
      ∧ (generate_questionnaire dq_data country ts).questions.map (fun q => q.order_sequence)
          = (List.range' 1 (rawQuestions dq_data ts).length).map Int.ofNat
      ∧ ((generate_questionnaire dq_data country ts).questions.map
          (fun q => priorityRank q.priority)).Pairwise (· ≤ ·) := by
  have hsorted : ((rawQuestions dq_data ts).mergeSort questionKeyLE).Pairwise
      (fun a b => questionKeyLE a b = true) := by
    simpa using List.sorted_mergeSort
      (fun a b c hab hbc => questionKeyLE_trans a b c hab hbc)
      (fun a b => questionKeyLE_total a b)
      (rawQuestions dq_data ts)
  have hq : (generate_questionnaire dq_data country ts).questions
      = renumberFrom 1 ((rawQuestions dq_data ts).mergeSort questionKeyLE) := rfl
  refine ⟨(rawQuestions dq_data ts).mergeSort questionKeyLE,
    List.mergeSort_perm _ _, hsorted, hq, ?_, ?_⟩
  · rw [hq, renumberFrom_map_order, List.length_mergeSort]
  · rw [hq, renumberFrom_map_rank]
    rw [List.pairwise_map]
    refine hsorted.imp ?_
    intro a b hab
    simp only [questionKeyLE, decide_eq_true_eq] at hab
    omega
